import Mathlib

/-!
Shallow embedding of the brain-age benchmark scripts
`compute_benchmark_age_prediction.py` and `X_y_model.py`.

External data (participants table, feature files, processing logs) and the
scikit-learn scoring routine are abstracted into an `Env` record of total
functions; the control flow, dictionary lookups, string formatting and the
construction of models, tables and cross-validation objects are translated
from the source line by line.  Python dictionaries keyed by strings become
association lists, `dict[key]` lookups become `dictGet` (raising `KeyError`
when missing), and `raise` statements become values of `PyError`.
-/

deriving instance DecidableEq for Except

/-- Python exceptions raised by the scripts. -/
inductive PyError where
  | valueError (msg : String)
  | keyError (key : String)
  | notImplementedError (msg : String)
deriving DecidableEq

/-- `sklearn.model_selection.KFold(n_splits=..., shuffle=..., random_state=...)`:
the constructor arguments, as stored on the estimator object. -/
structure KFold where
  n_splits : Nat
  shuffle : Bool
  random_state : Option Nat
deriving DecidableEq

/-- Seed actually used by `check_random_state`: an explicit `random_state`
overrides the ambient global numpy randomness (modelled as `ambient`). -/
def KFold.effectiveSeed (kf : KFold) (ambient : Nat) : Nat :=
  kf.random_state.getD ambient

/-- Sizes of the test folds in sklearn KFold: each fold gets
`n / n_splits` samples, the first `n % n_splits` folds one extra. -/
def foldSizes (n_splits n : Nat) : List Nat :=
  (List.range n_splits).map fun i => n / n_splits + if i < n % n_splits then 1 else 0

/-- Cut a list into consecutive chunks of the given sizes. -/
def chunkBy : List Nat → List Nat → List (List Nat)
  | [], _ => []
  | s :: ss, xs => xs.take s :: chunkBy ss (xs.drop s)

/-- `KFold.split`: with `shuffle=True` the index order is a permutation drawn
from the effective seed (`perm seed n` abstracts the Fisher-Yates shuffle of
`np.arange(n)`); consecutive chunks of the (possibly shuffled) order are the
test memberships, and both the train and the test indices of each fold are
emitted in ascending order, as `BaseCrossValidator.split` does. -/
def KFold.split (kf : KFold) (perm : Nat → Nat → List Nat) (ambient n : Nat) :
    List (List Nat × List Nat) :=
  let indices := List.range n
  let order := if kf.shuffle then perm (kf.effectiveSeed ambient) n else indices
  let testFolds := chunkBy (foldSizes kf.n_splits n) order
  testFolds.map fun t =>
    (indices.filter (fun i => !(t.contains i)), indices.filter (fun i => t.contains i))

/-! ## compute_benchmark_age_prediction.py : configuration -/

/-- `DATASETS = ['chbp', 'lemon', 'tuab', 'camcan']` (line 23). -/
def DATASETS : List String := ["chbp", "lemon", "tuab", "camcan"]

/-- `BENCHMARKS = ['dummy', 'filterbank-riemann', 'filterbank-source', 'handcrafted']`
(line 24). -/
def BENCHMARKS : List String :=
  ["dummy", "filterbank-riemann", "filterbank-source", "handcrafted"]

/-- The parsed command line: `--dataset` and `--benchmark` both default to
`None`, `--n_jobs` defaults to 1. -/
structure Args where
  dataset : Option (List String)
  benchmark : Option (List String)
  n_jobs : Int
deriving DecidableEq

/-- `tasks = [(ds, bs) for ds in datasets for bs in benchmarks]` (line 47). -/
def tasksOf (datasets benchmarks : List String) : List (String × String) :=
  datasets.flatMap fun ds => benchmarks.map fun bs => (ds, bs)

/-- The validation loop of lines 48-52: the first unknown dataset or benchmark
name raises a `ValueError` (dataset checked before benchmark). -/
def validateTasks : List (String × String) → Except PyError Unit
  | [] => .ok ()
  | (dataset, benchmark) :: rest =>
    if dataset ∉ DATASETS then
      .error (.valueError ("The dataset " ++ dataset ++ " passed is unkonwn"))
    else if benchmark ∉ BENCHMARKS then
      .error (.valueError ("The benchmark " ++ benchmark ++ " passed is unkonwn"))
    else validateTasks rest

/-- `config_map` (lines 56-59): dataset name to configuration module name. -/
def config_map : List (String × String) :=
  [("chbp", "config_chbp_eeg"), ("lemon", "config_lemon_eeg"),
   ("tuab", "config_tuab"), ("camcan", "config_camcan_meg")]

/-- One entry of `bench_config`: a Python dict that may or may not carry a
`frequency_bands` key, and always carries a `feature_map` key. -/
structure BenchCfg where
  frequency_bands : Option (List (String × Rat × Rat))
  feature_map : String
deriving DecidableEq

/-- The frequency bands of the `filterbank-riemann` entry (lines 63-71). -/
def riemann_frequency_bands : List (String × Rat × Rat) :=
  [("low", ((1 : Rat)/10, 1)), ("delta", (1, 4)), ("theta", (4, 8)),
   ("alpha", (8, 15)), ("beta_low", (15, 26)), ("beta_mid", (26, 35)),
   ("beta_high", (35, 49))]

/-- `bench_config` (lines 61-76).  Note that only the `filterbank-riemann`
entry has a `frequency_bands` key. -/
def bench_config : List (String × BenchCfg) :=
  [("filterbank-riemann", ⟨some riemann_frequency_bands, "fb_covs"⟩),
   ("filterbank-source", ⟨none, "source_power"⟩),
   ("handcrafted", ⟨none, "handcrafted"⟩)]

/-- Python `d[key]` on a string-keyed dict: `KeyError` when absent. -/
def dictGet (key : String) (d : List (String × α)) : Except PyError α :=
  match d.find? (fun p => p.1 == key) with
  | some p => .ok p.2
  | none => .error (.keyError key)

/-! ## compute_benchmark_age_prediction.py : data loading -/

/-- The predictor matrix `X` as built by each branch of `load_benchmark_data`.
The numeric feature values live in external HDF5 files and are abstracted; the
shape of the object (which DataFrame columns, which subject rows) is kept. -/
inductive XData where
  | dataFrameCovs (bands : List String) (subjects : List String)
  | dataFrameSourcePower (bands : List String) (subjects : List String)
  | featsList (subjects : List String)
  | zeros (rows cols : Nat)
deriving DecidableEq

/-- The regression model built by each branch of `load_benchmark_data`.  The
scikit-learn estimator internals are abstracted to the constructor arguments
that the script chooses. -/
inductive ModelData where
  | riemannPipeline (bands : List String) (rank : Nat)
  | handcraftedPipeline
  | dummyRegressorMean
deriving DecidableEq

/-- Per-fold score arrays returned by `sklearn.model_selection.cross_validate`
for `scoring=['neg_mean_absolute_error', 'r2']`.  Scores are abstracted to
integers; only their flow into the results table matters here. -/
structure CVScores where
  test_neg_mean_absolute_error : List Int
  test_r2 : List Int
  fit_time : List Int
  score_time : List Int
deriving DecidableEq

/-- A pandas DataFrame: named columns in order. -/
structure DataFrame where
  cols : List (String × List Int)
deriving DecidableEq

/-- The external world of the script: the participants table of the current
dataset, the processing logs, the per-dataset channel configuration and the
scoring routine.  All are total functions, so the same environment always
answers the same way. -/
structure Env where
  /-- rows of `participants.tsv`: participant_id and age. -/
  participants : List (String × Nat)
  /-- subjects with `ok == "OK"` in a given feature log file. -/
  procLogOK : String → List String
  /-- `len(cfg.analyze_channels)` of the dataset configuration module. -/
  analyzeChannelsLen : String → Nat
  /-- `cross_validate(model, X, y, cv=..., scoring=metrics)` abstracted: the
  scores depend on the estimator, data and splits, never on `n_jobs`. -/
  crossValidate : Option ModelData → Option XData → Option (List Nat) →
    List (List Nat × List Nat) → CVScores

/-- `load_benchmark_data(dataset, benchmark, condition=None)` (lines 84-205),
translated branch by branch.  Returns the triple `X, y, model`, each of which
may remain `None`.  Of note, translated exactly from the source:
the `bench_config[benchmark]` lookup of line 132 runs for every non-dummy
benchmark (so an unlisted benchmark such as `deep` raises `KeyError` there),
the `filterbank-source` branch looks up a `frequency_bands` key that its
`bench_config` entry does not have, and that branch never assigns `model`. -/
def load_benchmark_data (env : Env) (dataset benchmark : String)
    (condition : Option String) :
    Except PyError (Option XData × Option (List Nat) × Option ModelData) := do
  if (config_map.find? (fun p => p.1 == dataset)).isNone then
    throw (.valueError ("We do not know the dataset " ++ dataset ++ " you requested."))
  let condition_ :=
    match condition with
    | none => if dataset == "chbp" || dataset == "lemon" then "pooled" else "rest"
    | some c => c
  let df0 := env.participants
  -- lines 131-138: for non-dummy benchmarks, restrict to subjects whose
  -- feature computation log says OK (df_subjects.loc[good_subjects])
  let df_subjects ←
    if benchmark != "dummy" then do
      let bench_cfg ← dictGet benchmark bench_config
      let feature_label := bench_cfg.feature_map
      let feature_log := "feature_" ++ feature_label ++ "_" ++ condition_ ++ "-log.csv"
      let good_subjects := env.procLogOK feature_log
      pure (good_subjects.filterMap fun s => df0.find? (fun p => p.1 == s))
    else
      pure df0
  -- X, y, model = None, None, None (line 140)
  if benchmark == "filterbank-riemann" then do
    -- the dict was already fetched above; the same lookup yields the same entry
    let bench_cfg ← dictGet benchmark bench_config
    let frequency_bands ←
      match bench_cfg.frequency_bands with
      | some fb => pure fb
      | none => throw (.keyError "frequency_bands")
    let X := XData.dataFrameCovs (frequency_bands.map (·.1)) (df_subjects.map (·.1))
    let y := df_subjects.map (·.2)
    let rank := if dataset == "camcan" then 65 else env.analyzeChannelsLen dataset - 1
    let model := ModelData.riemannPipeline (frequency_bands.map (·.1)) rank
    pure (some X, some y, some model)
  else if benchmark == "filterbank-source" then do
    let bench_cfg ← dictGet benchmark bench_config
    -- line 163: bench_cfg has no frequency_bands key for this benchmark
    let frequency_bands ←
      match bench_cfg.frequency_bands with
      | some fb => pure fb
      | none => throw (.keyError "frequency_bands")
    let X := XData.dataFrameSourcePower (frequency_bands.map (·.1)) (df_subjects.map (·.1))
    let y := df_subjects.map (·.2)
    -- lines 172-175 build filter_bank_transformer but never assign model
    pure (some X, some y, none)
  else if benchmark == "handcrafted" then do
    let X := XData.featsList (df_subjects.map (·.1))
    let y := df_subjects.map (·.2)
    let model := ModelData.handcraftedPipeline
    pure (some X, some y, some model)
  else if benchmark == "dummy" then do
    let y := df_subjects.map (·.2)
    let X := XData.zeros y.length 1
    let model := ModelData.dummyRegressorMean
    pure (some X, some y, some model)
  else if benchmark == "deep" then
    -- unreachable: the bench_config lookup above already raised KeyError
    throw (.notImplementedError "not yet available")
  else
    pure (none, none, none)

/-! ## compute_benchmark_age_prediction.py : cross-validation and main loop -/

/-- Observable steps of the script, in program order: the call into
`load_benchmark_data`, the call into `cross_validate` (recording the `n_jobs`
argument and the `cv` object it receives), the two `print` reports and the
`results_df.to_csv` write. -/
inductive Event where
  | loadData (dataset benchmark : String)
  | crossValidateCall (njobs : Int) (cv : KFold)
  | reportMetric (metric benchmark dataset : String)
  | writeCsv (path : String) (df : DataFrame)
deriving DecidableEq

/-- Forget the `n_jobs` argument of a `cross_validate` call. -/
def Event.eraseNJobs : Event → Event
  | .crossValidateCall _ cv => .crossValidateCall 0 cv
  | e => e

/-- `run_benchmark_cv(benchmark, dataset)` (lines 210-226): load the data,
build `KFold(n_splits=10, shuffle=True, random_state=42)`, score with
`cross_validate`, assemble the results DataFrame with columns MAE
(sign-flipped `test_neg_mean_absolute_error`), r2, fit_time, score_time, and
print the two metric means.  The returned trace lists the steps in order; a
load error aborts before any evaluation. -/
def run_benchmark_cv (env : Env) (perm : Nat → Nat → List Nat) (ambient : Nat)
    (njobs : Int) (benchmark dataset : String) :
    List Event × Except PyError DataFrame :=
  match load_benchmark_data env dataset benchmark none with
  | .error e => ([.loadData dataset benchmark], .error e)
  | .ok (X, y, model) =>
    let cv : KFold := ⟨10, true, some 42⟩
    let n := (y.getD []).length
    let scores := env.crossValidate model X y (cv.split perm ambient n)
    let results : DataFrame :=
      ⟨[("MAE", scores.test_neg_mean_absolute_error.map (fun v => v * -1)),
        ("r2", scores.test_r2),
        ("fit_time", scores.fit_time),
        ("score_time", scores.score_time)]⟩
    ([.loadData dataset benchmark,
      .crossValidateCall njobs cv,
      .reportMetric "MAE" benchmark dataset,
      .reportMetric "r2" benchmark dataset],
     .ok results)

/-- The output path of line 233-234. -/
def resultsPath (benchmark dataset : String) : String :=
  "./results/benchmark-" ++ benchmark ++ "_dataset-" ++ dataset ++ ".csv"

/-- One iteration of the main loop (lines 230-234): run the benchmark, then
write the results table to the per-benchmark/per-dataset csv path. -/
def runTask (env : Env) (perm : Nat → Nat → List Nat) (ambient : Nat)
    (njobs : Int) (t : String × String) : List Event × Option PyError :=
  match t with
  | (dataset, benchmark) =>
    match run_benchmark_cv env perm ambient njobs benchmark dataset with
    | (tr, .error e) => (tr, some e)
    | (tr, .ok df) => (tr ++ [.writeCsv (resultsPath benchmark dataset) df], none)

/-- The main loop over `tasks`: an uncaught exception stops the script. -/
def runTasks (env : Env) (perm : Nat → Nat → List Nat) (ambient : Nat)
    (njobs : Int) : List (String × String) → List Event × Option PyError
  | [] => ([], none)
  | t :: rest =>
    match runTask env perm ambient njobs t with
    | (tr, some e) => (tr, some e)
    | (tr, none) =>
      let r := runTasks env perm ambient njobs rest
      (tr ++ r.1, r.2)

/-- The whole script after argument parsing (lines 43-52 and 230-234):
resolve the defaults, build `tasks`, validate every pair before anything runs,
then execute the main loop. -/
def runScript (env : Env) (perm : Nat → Nat → List Nat) (ambient : Nat)
    (args : Args) : List Event × Option PyError :=
  let datasets := args.dataset.getD DATASETS
  let benchmarks := args.benchmark.getD BENCHMARKS
  let tasks := tasksOf datasets benchmarks
  match validateTasks tasks with
  | .error e => ([], some e)
  | .ok () => runTasks env perm ambient args.n_jobs tasks

/-- `tasks` as computed when no command-line selection is given. -/
def defaultTasks : List (String × String) :=
  tasksOf ((none : Option (List String)).getD DATASETS)
    ((none : Option (List String)).getD BENCHMARKS)

/-- Whether an `Except` computation succeeded. -/
def isOkE : Except ε α → Bool
  | .ok _ => true
  | .error _ => false

/-! ## X_y_model.py -/

/-- One epochs `.fif` file as `mne.read_epochs` presents it: `len(e)` epochs,
each window of shape `(..., nChannels, windowLen)`, and the per-epoch events
column that `create_windows_ds` overwrites with the subject age. -/
structure EpochsFile where
  nEpochs : Nat
  nChannels : Nat
  windowLen : Nat
  eventsAge : List Nat
deriving DecidableEq

/-- The braindecode windows dataset built by `create_from_mne_epochs` with one
window per pre-cut trial (window size = stride = trial length). -/
structure WindowsDS where
  epochsList : List EpochsFile
  window_size_samples : Nat
  window_stride_samples : Nat
  drop_last_window : Bool
deriving DecidableEq

/-- `len(windows_ds)`: one window per epoch of every file. -/
def WindowsDS.len (ds : WindowsDS) : Nat :=
  (ds.epochsList.map (·.nEpochs)).sum

/-- Lines 20-21 of `create_windows_ds`: the age of each subject written into
the events of its epochs file (the in-place mutation, as the resulting list). -/
def agedEpochs (fnames : List EpochsFile) (ages : List Nat) : List EpochsFile :=
  (fnames.zip ages).map fun p => { p.1 with eventsAge := List.replicate p.1.nEpochs p.2 }

/-- `window_sizes = [e.get_data(item=0).shape[-1] for e in epochs]` (line 24). -/
def windowSizes (fnames : List EpochsFile) (ages : List Nat) : List Nat :=
  (agedEpochs fnames ages).map (·.windowLen)

/-- `n_channels = [e.get_data(item=0).shape[-2] for e in epochs]` (line 26). -/
def nChannelsList (fnames : List EpochsFile) (ages : List Nat) : List Nat :=
  (agedEpochs fnames ages).map (·.nChannels)

/-- `create_windows_ds(fnames, ages)` (lines 14-41): write each age into the
events of its epochs file, assert that there are as many files as ages, that
all files share one window length (`len(set(window_sizes)) == 1`) and one
channel count, and return the windows dataset together with that window
length and channel count (`window_sizes[0]`, `n_channels[0]`).  A failed
`assert` is an `AssertionError`, modelled as `.error`. -/
def create_windows_ds (fnames : List EpochsFile) (ages : List Nat) :
    Except String (WindowsDS × Nat × Nat) :=
  if fnames.length ≠ ages.length then
    .error "AssertionError: len(epochs) == len(ages)"
  else if (windowSizes fnames ages).dedup.length ≠ 1 then
    .error "AssertionError: len(set(window_sizes)) == 1"
  else if (nChannelsList fnames ages).dedup.length ≠ 1 then
    .error "AssertionError: len(set(n_channels)) == 1"
  else
    .ok (⟨agedEpochs fnames ages, (windowSizes fnames ages).headD 0,
          (windowSizes fnames ages).headD 0, false⟩,
         (windowSizes fnames ages).headD 0, (nChannelsList fnames ages).headD 0)

/-- The braindecode network chosen by `create_model`, abstracted to its
constructor arguments (softmax-stripping and GPU placement elided). -/
inductive ModelTag where
  | shallowFBCSPNet (in_chans n_classes input_window_samples : Nat)
  | deep4Net (in_chans n_classes input_window_samples : Nat)
deriving DecidableEq

/-- `create_model(model_name, window_size, n_channels, seed)` (lines 44-85):
the `shallow` branch, the asserted `deep` branch, and the hard-coded learning
rate and weight decay of each. -/
def create_model (model_name : String) (window_size n_channels seed : Nat) :
    Except String (ModelTag × Rat × Rat) :=
  if model_name == "shallow" then
    .ok (.shallowFBCSPNet n_channels 1 window_size, (625 : Rat)/10000 * (1/100), 0)
  else if model_name == "deep" then
    .ok (.deep4Net n_channels 1 window_size, (1 : Rat) * (1/100), (5 : Rat)/10 * (1/1000))
  else
    .error "AssertionError: model_name == deep"

/-- `windows_ds.split(by=indices)[0]`: the sub-dataset given by a list of
window indices. -/
structure SetSplit where
  base : WindowsDS
  idx : List Nat
deriving DecidableEq

/-- The `EEGRegressor` built in `create_model_and_data_split`, abstracted to
the arguments the script passes. -/
structure EEGRegressorCfg where
  module : ModelTag
  lr : Rat
  weight_decay : Rat
  batch_size : Nat
  valid : SetSplit
deriving DecidableEq

/-- Accumulator form of the fold-selection loop of lines 105-107: Python
leaves the loop variable bound to the last iterated value when no `break`
fires, and breaks as soon as `fold_i == fold`. -/
def pickFoldGo (fold : Nat) (last : Option α) (i : Nat) : List α → Option α
  | [] => last
  | s :: rest => if i = fold then some s else pickFoldGo fold (some s) (i + 1) rest

/-- `for fold_i, (train_is, valid_is) in enumerate(cv.split(...)): if fold_i ==
fold: break` — the pair left in `(train_is, valid_is)` afterwards, or `none`
when the loop body never ran (Python would then hit a `NameError`). -/
def pickFold (splits : List α) (fold : Nat) : Option α :=
  pickFoldGo fold none 0 splits

/-- `create_model_and_data_split` (lines 88-134): build the network, pick the
train/validation indices of the requested fold from `cv.split` over
`np.arange(len(windows_ds))`, split the windows dataset accordingly and wire
the `EEGRegressor` to the validation set.  Returns `(train_set, None, clf)`. -/
def create_model_and_data_split (perm : Nat → Nat → List Nat) (ambient : Nat)
    (model_name : String) (windows_ds : WindowsDS)
    (n_channels window_size n_epochs : Nat) (cv : KFold) (fold seed batch_size : Nat) :
    Except String (SetSplit × Option Unit × EEGRegressorCfg) :=
  match create_model model_name window_size n_channels seed with
  | .error e => .error e
  | .ok (model, lr, weight_decay) =>
    -- example_ids = np.arange(len(windows_ds))
    match pickFold (cv.split perm ambient (List.range windows_ds.len).length) fold with
    | none => .error "NameError: name train_is is not defined"
    | some p =>
      .ok (⟨windows_ds, p.1⟩, none,
           ⟨model, lr, weight_decay, batch_size, ⟨windows_ds, p.2⟩⟩)

/-- The train/validation index pair that `create_model_and_data_split` settled
on, when it succeeded. -/
def splitChoice (r : Except String (SetSplit × Option Unit × EEGRegressorCfg)) :
    Option (List Nat × List Nat) :=
  match r with
  | .ok (ts, _, clf) => some (ts.idx, clf.valid.idx)
  | .error _ => none

/-! ## Concrete data for evaluating the embedding -/

/-- A one-subject world: the participants table holds `sub-1`, every
processing log marks it OK, every dataset has three analyze channels, and
`cross_validate` returns fixed one-fold scores. -/
def envW : Env :=
  { participants := [("sub-1", 30)]
    procLogOK := fun _ => ["sub-1"]
    analyzeChannelsLen := fun _ => 3
    crossValidate := fun _ _ _ _ => ⟨[-3], [1], [2], [2]⟩ }

/-- The identity shuffle, as one concrete permutation source. -/
def permW : Nat → Nat → List Nat := fun _ n => List.range n

/-- Command line `-d chbp -b dummy`. -/
def argsW : Args := ⟨some ["chbp"], some ["dummy"], 1⟩

/-- Command line `-d foo -b dummy`, an unrecognized dataset name. -/
def argsBad : Args := ⟨some ["foo"], some ["dummy"], 1⟩

/-- One epochs file of four epochs, three channels, hundred samples. -/
def wdsW : WindowsDS := ⟨[⟨4, 3, 100, []⟩], 100, 100, false⟩

/-- The results table produced by `envW` scores: MAE is the sign-flipped
neg-MAE column. -/
def dfW : DataFrame :=
  ⟨[("MAE", [3]), ("r2", [1]), ("fit_time", [2]), ("score_time", [2])]⟩

/-- The event trace of a completed dummy run on chbp with `n_jobs = 1`. -/
def trW : List Event :=
  [.loadData "chbp" "dummy", .crossValidateCall 1 ⟨10, true, some 42⟩,
   .reportMetric "MAE" "dummy" "chbp", .reportMetric "r2" "dummy" "chbp"]

/-! ## Helper lemmas -/

theorem validateTasks_ok_of_good (ts : List (String × String))
    (h : ∀ p ∈ ts, p.1 ∈ DATASETS ∧ p.2 ∈ BENCHMARKS) : validateTasks ts = .ok () := by
  induction ts with
  | nil => rfl
  | cons q rest ih =>
    obtain ⟨d, b⟩ := q
    obtain ⟨hd, hb⟩ := h (d, b) (List.mem_cons_self _ _)
    simp only [validateTasks]
    rw [if_neg (not_not_intro hd), if_neg (not_not_intro hb)]
    exact ih fun p hp => h p (List.mem_cons_of_mem _ hp)

theorem validateTasks_error_of_bad (ts : List (String × String))
    (h : ∃ p ∈ ts, p.1 ∉ DATASETS ∨ p.2 ∉ BENCHMARKS) :
    ∃ msg, validateTasks ts = .error (.valueError msg) := by
  induction ts with
  | nil => simp at h
  | cons q rest ih =>
    obtain ⟨d, b⟩ := q
    by_cases hd : d ∈ DATASETS
    · by_cases hb : b ∈ BENCHMARKS
      · obtain ⟨p, hp, hbad⟩ := h
        rcases List.mem_cons.mp hp with rfl | hrest
        · rcases hbad with h1 | h1
          · exact absurd hd h1
          · exact absurd hb h1
        · obtain ⟨msg, hm⟩ := ih ⟨p, hrest, hbad⟩
          refine ⟨msg, ?_⟩
          simp only [validateTasks]
          rw [if_neg (not_not_intro hd), if_neg (not_not_intro hb)]
          exact hm
      · refine ⟨"The benchmark " ++ b ++ " passed is unkonwn", ?_⟩
        simp only [validateTasks]
        rw [if_neg (not_not_intro hd), if_pos hb]
    · refine ⟨"The dataset " ++ d ++ " passed is unkonwn", ?_⟩
      simp only [validateTasks]
      rw [if_pos hd]

theorem pickFoldGo_lt (l : List α) : ∀ (i : Nat) (last : Option α) (k : Nat)
    (h : k < l.length), pickFoldGo (i + k) last i l = some (l.get ⟨k, h⟩) := by
  induction l with
  | nil => intro _ _ k h; exact absurd h (by simp)
  | cons s rest ih =>
    intro i last k h
    cases k with
    | zero => simp [pickFoldGo]
    | succ k =>
      have hne : ¬ (i = i + (k + 1)) := by omega
      simp only [pickFoldGo, if_neg hne]
      have harg : i + (k + 1) = (i + 1) + k := by omega
      rw [harg]
      exact ih (i + 1) (some s) k (by simpa using h)

theorem pickFoldGo_ge (l : List α) : ∀ (i fold : Nat) (last : Option α)
    (hne : l ≠ []) (hge : i + l.length ≤ fold),
    pickFoldGo fold last i l = some (l.getLast hne) := by
  induction l with
  | nil => intro _ _ _ hne _; exact absurd rfl hne
  | cons s rest ih =>
    intro i fold last hne hge
    simp only [List.length_cons] at hge
    have hif : ¬ (i = fold) := by omega
    simp only [pickFoldGo, if_neg hif]
    cases rest with
    | nil => simp only [pickFoldGo]; rfl
    | cons c t =>
      rw [ih (i + 1) fold (some s) (List.cons_ne_nil c t)
        (by simp only [List.length_cons] at hge ⊢; omega)]
      exact congrArg some (List.getLast_cons (List.cons_ne_nil c t)).symm

theorem dedup_eq_singleton_of_const (l : List Nat) (a : Nat) :
    l ≠ [] → (∀ x ∈ l, x = a) → l.dedup = [a] := by
  induction l with
  | nil => intro h; exact absurd rfl h
  | cons b t ih =>
    intro _ hall
    have hb : b = a := hall b (List.mem_cons_self _ _)
    cases t with
    | nil => simpa [List.dedup] using hb
    | cons c t2 =>
      have ht : (c :: t2).dedup = [a] :=
        ih (List.cons_ne_nil c t2) fun x hx => hall x (List.mem_cons_of_mem _ hx)
      have hmem : b ∈ c :: t2 := by
        have : a ∈ (c :: t2).dedup := by rw [ht]; exact List.mem_singleton_self a
        rw [hb]
        exact List.mem_dedup.mp this
      rw [List.dedup_cons_of_mem hmem, ht]

theorem dedup_length_ne_one_of_two (l : List Nat) (x y : Nat)
    (hx : x ∈ l) (hy : y ∈ l) (hne : x ≠ y) : l.dedup.length ≠ 1 := by
  intro h1
  obtain ⟨a, ha⟩ := List.length_eq_one.mp h1
  have hxa : x = a := by
    have := List.mem_dedup.mpr hx
    rw [ha] at this
    simpa using this
  have hya : y = a := by
    have := List.mem_dedup.mpr hy
    rw [ha] at this
    simpa using this
  exact hne (hxa.trans hya.symm)

theorem run_benchmark_cv_njobs_mem (env : Env) (perm : Nat → Nat → List Nat)
    (ambient : Nat) (njobs : Int) (benchmark dataset : String) (n : Int) (cv : KFold)
    (h : Event.crossValidateCall n cv
      ∈ (run_benchmark_cv env perm ambient njobs benchmark dataset).1) :
    n = njobs := by
  rcases hl : load_benchmark_data env dataset benchmark none with e | val
  · simp [run_benchmark_cv, hl] at h
  · obtain ⟨X, y, m⟩ := val
    simp [run_benchmark_cv, hl] at h
    exact h.1

theorem run_benchmark_cv_erase (env : Env) (perm : Nat → Nat → List Nat)
    (ambient : Nat) (n n' : Int) (benchmark dataset : String) :
    (run_benchmark_cv env perm ambient n benchmark dataset).1.map Event.eraseNJobs
      = (run_benchmark_cv env perm ambient n' benchmark dataset).1.map Event.eraseNJobs
    ∧ (run_benchmark_cv env perm ambient n benchmark dataset).2
      = (run_benchmark_cv env perm ambient n' benchmark dataset).2 := by
  rcases hl : load_benchmark_data env dataset benchmark none with e | val
  · simp [run_benchmark_cv, hl]
  · obtain ⟨X, y, m⟩ := val
    simp [run_benchmark_cv, hl, Event.eraseNJobs]

theorem runTask_njobs_mem (env : Env) (perm : Nat → Nat → List Nat)
    (ambient : Nat) (njobs : Int) (t : String × String) (n : Int) (cv : KFold)
    (h : Event.crossValidateCall n cv ∈ (runTask env perm ambient njobs t).1) :
    n = njobs := by
  obtain ⟨dataset, benchmark⟩ := t
  have hmem : Event.crossValidateCall n cv
      ∈ (run_benchmark_cv env perm ambient njobs benchmark dataset).1 := by
    rcases hr : run_benchmark_cv env perm ambient njobs benchmark dataset with ⟨tr, res⟩
    cases res with
    | error e => simpa [runTask, hr] using h
    | ok df =>
      simp [runTask, hr] at h
      simpa using h
  exact run_benchmark_cv_njobs_mem env perm ambient njobs benchmark dataset n cv hmem

theorem runTask_erase (env : Env) (perm : Nat → Nat → List Nat)
    (ambient : Nat) (n n' : Int) (t : String × String) :
    (runTask env perm ambient n t).1.map Event.eraseNJobs
      = (runTask env perm ambient n' t).1.map Event.eraseNJobs
    ∧ (runTask env perm ambient n t).2 = (runTask env perm ambient n' t).2 := by
  obtain ⟨dataset, benchmark⟩ := t
  obtain ⟨htr, hres⟩ := run_benchmark_cv_erase env perm ambient n n' benchmark dataset
  rcases h1 : run_benchmark_cv env perm ambient n benchmark dataset with ⟨tr1, r1⟩
  rcases h2 : run_benchmark_cv env perm ambient n' benchmark dataset with ⟨tr2, r2⟩
  rw [h1, h2] at htr hres
  simp only at htr hres
  cases r1 with
  | error e1 =>
    cases r2 with
    | error e2 =>
      have he : e1 = e2 := by simpa using hres
      subst he
      simp [runTask, h1, h2, htr]
    | ok df2 => simp at hres
  | ok df1 =>
    cases r2 with
    | error e2 => simp at hres
    | ok df2 =>
      have hdf : df1 = df2 := by simpa using hres
      subst hdf
      simp [runTask, h1, h2, htr]

theorem runTasks_njobs_mem (env : Env) (perm : Nat → Nat → List Nat)
    (ambient : Nat) (njobs : Int) : ∀ (ts : List (String × String)) (n : Int) (cv : KFold),
    Event.crossValidateCall n cv ∈ (runTasks env perm ambient njobs ts).1 → n = njobs := by
  intro ts
  induction ts with
  | nil => intro n cv h; simp [runTasks] at h
  | cons t rest ih =>
    intro n cv h
    rcases ht : runTask env perm ambient njobs t with ⟨tr, err⟩
    cases err with
    | some e =>
      have : Event.crossValidateCall n cv ∈ (runTask env perm ambient njobs t).1 := by
        rw [ht]
        simpa [runTasks, ht] using h
      exact runTask_njobs_mem env perm ambient njobs t n cv this
    | none =>
      simp [runTasks, ht] at h
      rcases h with h | h
      · exact runTask_njobs_mem env perm ambient njobs t n cv (by rw [ht]; simpa using h)
      · exact ih n cv h

theorem runTasks_erase (env : Env) (perm : Nat → Nat → List Nat)
    (ambient : Nat) (n n' : Int) : ∀ (ts : List (String × String)),
    (runTasks env perm ambient n ts).1.map Event.eraseNJobs
      = (runTasks env perm ambient n' ts).1.map Event.eraseNJobs
    ∧ (runTasks env perm ambient n ts).2 = (runTasks env perm ambient n' ts).2 := by
  intro ts
  induction ts with
  | nil => exact ⟨rfl, rfl⟩
  | cons t rest ih =>
    obtain ⟨htr, hres⟩ := runTask_erase env perm ambient n n' t
    rcases h1 : runTask env perm ambient n t with ⟨tr1, e1⟩
    rcases h2 : runTask env perm ambient n' t with ⟨tr2, e2⟩
    rw [h1, h2] at htr hres
    simp only at htr hres
    cases e1 with
    | some e =>
      cases e2 with
      | some e2v =>
        have : e = e2v := by simpa using hres
        subst this
        simp [runTasks, h1, h2, htr]
      | none => simp at hres
    | none =>
      cases e2 with
      | some e2v => simp at hres
      | none => simp [runTasks, h1, h2, htr, ih.1, ih.2]

theorem windowSizes_eq (files : List EpochsFile) (ages : List Nat)
    (h : files.length ≤ ages.length) :
    windowSizes files ages = files.map (·.windowLen) := by
  unfold windowSizes agedEpochs
  rw [List.map_map]
  rw [show ((fun e : EpochsFile => e.windowLen) ∘ fun p : EpochsFile × Nat =>
      { p.1 with eventsAge := List.replicate p.1.nEpochs p.2 })
      = ((fun e : EpochsFile => e.windowLen) ∘ Prod.fst) from rfl]
  rw [← List.map_map, List.map_fst_zip files ages h]

theorem nChannelsList_eq (files : List EpochsFile) (ages : List Nat)
    (h : files.length ≤ ages.length) :
    nChannelsList files ages = files.map (·.nChannels) := by
  unfold nChannelsList agedEpochs
  rw [List.map_map]
  rw [show ((fun e : EpochsFile => e.nChannels) ∘ fun p : EpochsFile × Nat =>
      { p.1 with eventsAge := List.replicate p.1.nEpochs p.2 })
      = ((fun e : EpochsFile => e.nChannels) ∘ Prod.fst) from rfl]
  rw [← List.map_map, List.map_fst_zip files ages h]

/-! ## Claim theorems -/

/-- Claim C1.  The claim says `load_benchmark_data` returns a non-None model
for every recognized dataset and benchmark, in particular for
`filterbank-source`.  The code disagrees: for `filterbank-source` the call
never even returns — under every environment and dataset it raises, and on a
recognized dataset it raises `KeyError` for the missing `frequency_bands` key
of the `filterbank-source` entry of `bench_config` (and the branch would
leave `model = None` anyway, since it never assigns `model`). -/
theorem filterbank_source_load_never_succeeds (env : Env) (condition : Option String) :
    (∀ dataset ∈ DATASETS,
      load_benchmark_data env dataset "filterbank-source" condition
        = .error (.keyError "frequency_bands"))
    ∧ load_benchmark_data env "camcan" "filterbank-source" condition
      = .error (.keyError "frequency_bands") := by
  constructor
  · intro dataset hd
    fin_cases hd <;> rfl
  · rfl

/-- Witness for C1 at a concrete environment and dataset. -/
theorem filterbank_source_load_never_succeeds_witness :
    ("chbp" ∈ DATASETS)
    ∧ load_benchmark_data envW "chbp" "filterbank-source" none
      = .error (.keyError "frequency_bands") :=
  ⟨by decide, (filterbank_source_load_never_succeeds envW none).1 "chbp" (by decide)⟩

/-- Claim C3.  The claim says benchmark `deep` raises `NotImplementedError`.
The code disagrees: for every environment and every recognized dataset, line
132 (`bench_config[benchmark]`) raises `KeyError` for `deep` first, so the
`NotImplementedError` stub of line 203 is unreachable. -/
theorem deep_benchmark_raises_keyerror (env : Env) (condition : Option String) :
    load_benchmark_data env "chbp" "deep" condition = .error (.keyError "deep")
    ∧ load_benchmark_data env "lemon" "deep" condition = .error (.keyError "deep")
    ∧ load_benchmark_data env "tuab" "deep" condition = .error (.keyError "deep")
    ∧ load_benchmark_data env "camcan" "deep" condition = .error (.keyError "deep") :=
  ⟨rfl, rfl, rfl, rfl⟩

/-- Claim C2.  Any task pair with an unrecognized dataset or benchmark name
makes the validation loop raise a `ValueError`, and the script then stops with
an empty event trace — no benchmark is loaded, evaluated or written.  When
every name is recognized, validation raises nothing. -/
theorem unknown_names_rejected_during_validation (args : Args) (env : Env)
    (perm : Nat → Nat → List Nat) (ambient : Nat) :
    ((∃ p ∈ tasksOf (args.dataset.getD DATASETS) (args.benchmark.getD BENCHMARKS),
        p.1 ∉ DATASETS ∨ p.2 ∉ BENCHMARKS) →
      ∃ msg,
        validateTasks (tasksOf (args.dataset.getD DATASETS) (args.benchmark.getD BENCHMARKS))
          = .error (.valueError msg)
        ∧ runScript env perm ambient args = ([], some (.valueError msg)))
    ∧ ((∀ p ∈ tasksOf (args.dataset.getD DATASETS) (args.benchmark.getD BENCHMARKS),
        p.1 ∈ DATASETS ∧ p.2 ∈ BENCHMARKS) →
      validateTasks (tasksOf (args.dataset.getD DATASETS) (args.benchmark.getD BENCHMARKS))
        = .ok ()) := by
  constructor
  · intro hex
    obtain ⟨msg, hm⟩ := validateTasks_error_of_bad _ hex
    exact ⟨msg, hm, by simp [runScript, hm]⟩
  · exact validateTasks_ok_of_good _

/-- Witness for C2: the dataset name `foo` is rejected before anything runs,
and the fully recognized selection `-d chbp -b dummy` validates. -/
theorem unknown_names_rejected_during_validation_witness :
    (∃ msg,
      validateTasks (tasksOf (argsBad.dataset.getD DATASETS) (argsBad.benchmark.getD BENCHMARKS))
        = .error (.valueError msg)
      ∧ runScript envW permW 0 argsBad = ([], some (.valueError msg)))
    ∧ validateTasks (tasksOf (argsW.dataset.getD DATASETS) (argsW.benchmark.getD BENCHMARKS))
      = .ok () :=
  ⟨(unknown_names_rejected_during_validation argsBad envW permW 0).1
      ⟨("foo", "dummy"), by decide, by decide⟩,
   (unknown_names_rejected_during_validation argsW envW permW 0).2 (by decide)⟩

/-- Claim C5, counterexample.  The claim counts five runnable strategies
including the deep-learning variant; but `deep` is not in `BENCHMARKS`, the
runnable list has four entries, and selecting `deep` is rejected by validation
before anything runs. -/
theorem five_runnable_benchmarks_false :
    "deep" ∉ BENCHMARKS ∧ BENCHMARKS.length = 4
    ∧ isOkE (validateTasks [("chbp", "deep")]) = false
    ∧ runScript envW permW 0 ⟨some ["chbp"], some ["deep"], 1⟩
        = ([], some (.valueError "The benchmark deep passed is unkonwn")) := by
  refine ⟨by decide, rfl, by decide, by decide⟩

/-- Claim C5, amended: exactly four runnable benchmark strategies and four
datasets; with no command-line selection the default task list is the full
product of the four datasets with the four runnable strategies, all of which
validate, while `deep` is rejected for every dataset. -/
theorem runnable_benchmarks_exactly_four :
    BENCHMARKS = ["dummy", "filterbank-riemann", "filterbank-source", "handcrafted"]
    ∧ DATASETS = ["chbp", "lemon", "tuab", "camcan"]
    ∧ defaultTasks = tasksOf DATASETS BENCHMARKS
    ∧ validateTasks defaultTasks = .ok ()
    ∧ (DATASETS.all fun d => !(isOkE (validateTasks [(d, "deep")]))) = true := by
  refine ⟨rfl, rfl, rfl, by decide, by decide⟩

/-- Claim C6.  `run_benchmark_cv` either stops inside loading (trace is the
load step alone, with an error), or performs exactly load, then 10-fold
cross-validation, then the two metric reports, in that order, and succeeds. -/
theorem run_benchmark_cv_step_order (env : Env) (perm : Nat → Nat → List Nat)
    (ambient : Nat) (njobs : Int) (benchmark dataset : String) :
    ((run_benchmark_cv env perm ambient njobs benchmark dataset).1
        = [.loadData dataset benchmark]
      ∧ isOkE (run_benchmark_cv env perm ambient njobs benchmark dataset).2 = false)
    ∨ ((run_benchmark_cv env perm ambient njobs benchmark dataset).1
        = [.loadData dataset benchmark,
           .crossValidateCall njobs ⟨10, true, some 42⟩,
           .reportMetric "MAE" benchmark dataset,
           .reportMetric "r2" benchmark dataset]
      ∧ isOkE (run_benchmark_cv env perm ambient njobs benchmark dataset).2 = true) := by
  rcases hl : load_benchmark_data env dataset benchmark none with e | val
  · left
    simp [run_benchmark_cv, hl, isOkE]
  · obtain ⟨X, y, m⟩ := val
    right
    simp [run_benchmark_cv, hl, isOkE]

/-- Claim C10.  The cross-validation split of `run_benchmark_cv` is built with
`KFold(n_splits=10, shuffle=True, random_state=42)`, whose fixed seed makes it
independent of the ambient random state: two runs over the same environment
and data produce identical partitions and identical results. -/
theorem run_benchmark_cv_split_deterministic (env : Env) (perm : Nat → Nat → List Nat)
    (ambient1 ambient2 : Nat) (njobs : Int) (benchmark dataset : String) (n : Nat) :
    run_benchmark_cv env perm ambient1 njobs benchmark dataset
      = run_benchmark_cv env perm ambient2 njobs benchmark dataset
    ∧ (KFold.mk 10 true (some 42)).split perm ambient1 n
      = (KFold.mk 10 true (some 42)).split perm ambient2 n := by
  constructor
  · rcases hl : load_benchmark_data env dataset benchmark none with e | val
    · simp [run_benchmark_cv, hl]
    · obtain ⟨X, y, m⟩ := val
      simp [run_benchmark_cv, hl, KFold.split, KFold.effectiveSeed]
  · rfl

/-- Claim C4.  Whenever `run_benchmark_cv` completes for a pair, the main loop
writes its table to `./results/benchmark-{benchmark}_dataset-{dataset}.csv`;
the table has exactly the columns MAE, r2, fit_time, score_time, and the MAE
column is the `test_neg_mean_absolute_error` scores multiplied by -1. -/
theorem completed_pair_writes_results_csv (env : Env) (perm : Nat → Nat → List Nat)
    (ambient : Nat) (njobs : Int) (dataset benchmark : String) (tr : List Event)
    (df : DataFrame)
    (h : run_benchmark_cv env perm ambient njobs benchmark dataset = (tr, .ok df)) :
    runTask env perm ambient njobs (dataset, benchmark)
      = (tr ++ [.writeCsv (resultsPath benchmark dataset) df], none)
    ∧ df.cols.map Prod.fst = ["MAE", "r2", "fit_time", "score_time"]
    ∧ ∃ s : CVScores,
        df.cols = [("MAE", s.test_neg_mean_absolute_error.map (fun v => v * -1)),
                   ("r2", s.test_r2), ("fit_time", s.fit_time),
                   ("score_time", s.score_time)] := by
  have hdf : ∃ s : CVScores,
      df.cols = [("MAE", s.test_neg_mean_absolute_error.map (fun v => v * -1)),
                 ("r2", s.test_r2), ("fit_time", s.fit_time),
                 ("score_time", s.score_time)] := by
    rcases hl : load_benchmark_data env dataset benchmark none with e | val
    · simp [run_benchmark_cv, hl] at h
    · obtain ⟨X, y, m⟩ := val
      simp [run_benchmark_cv, hl] at h
      refine ⟨env.crossValidate m X y
          ((⟨10, true, some 42⟩ : KFold).split perm ambient (y.getD []).length), ?_⟩
      rw [← h.2]
      simp [mul_neg_one]
  refine ⟨by simp [runTask, h], ?_, hdf⟩
  obtain ⟨s, hs⟩ := hdf
  rw [hs]
  rfl

/-- Witness for C4: a completed dummy run on chbp writes its table at the
expected path with the expected columns. -/
theorem completed_pair_writes_results_csv_witness :
    run_benchmark_cv envW permW 0 1 "dummy" "chbp" = (trW, .ok dfW)
    ∧ runTask envW permW 0 1 ("chbp", "dummy")
        = (trW ++ [.writeCsv (resultsPath "dummy" "chbp") dfW], none)
    ∧ dfW.cols.map Prod.fst = ["MAE", "r2", "fit_time", "score_time"] :=
  ⟨by decide,
   (completed_pair_writes_results_csv envW permW 0 1 "chbp" "dummy" trW dfW (by decide)).1,
   (completed_pair_writes_results_csv envW permW 0 1 "chbp" "dummy" trW dfW (by decide)).2.1⟩

/-- Claim C7.  Every `cross_validate` call in a script run receives exactly
the parsed `n_jobs`, and `n_jobs` is used nowhere else: changing it leaves the
entire event trace (up to that one argument) and the script outcome
unchanged. -/
theorem n_jobs_only_flows_to_cross_validate (env : Env) (perm : Nat → Nat → List Nat)
    (ambient : Nat) (args : Args) (n : Int) :
    (∀ cv : KFold,
      Event.crossValidateCall n cv ∈ (runScript env perm ambient args).1 →
        n = args.n_jobs)
    ∧ (runScript env perm ambient { args with n_jobs := n }).1.map Event.eraseNJobs
        = (runScript env perm ambient args).1.map Event.eraseNJobs
    ∧ (runScript env perm ambient { args with n_jobs := n }).2
        = (runScript env perm ambient args).2 := by
  refine ⟨?_, ?_, ?_⟩
  · intro cv h
    rcases hv : validateTasks (tasksOf (args.dataset.getD DATASETS)
        (args.benchmark.getD BENCHMARKS)) with e | u
    · simp [runScript, hv] at h
    · simp only [runScript, hv] at h
      exact runTasks_njobs_mem env perm ambient args.n_jobs _ n cv h
  · rcases hv : validateTasks (tasksOf (args.dataset.getD DATASETS)
        (args.benchmark.getD BENCHMARKS)) with e | u
    · simp [runScript, hv]
    · simp only [runScript, hv]
      exact (runTasks_erase env perm ambient n args.n_jobs _).1
  · rcases hv : validateTasks (tasksOf (args.dataset.getD DATASETS)
        (args.benchmark.getD BENCHMARKS)) with e | u
    · simp [runScript, hv]
    · simp only [runScript, hv]
      exact (runTasks_erase env perm ambient n args.n_jobs _).2

/-- Witness for C7: in the concrete chbp dummy run the one `cross_validate`
event carries the parsed `n_jobs = 1`. -/
theorem n_jobs_only_flows_to_cross_validate_witness :
    Event.crossValidateCall 1 ⟨10, true, some 42⟩ ∈ (runScript envW permW 0 argsW).1
    ∧ (1 : Int) = argsW.n_jobs :=
  ⟨by decide,
   (n_jobs_only_flows_to_cross_validate envW permW 0 argsW 1).1 ⟨10, true, some 42⟩
     (by decide)⟩

/-- Claim C8.  `create_windows_ds` asserts that files and ages have equal
length, that all files share one window length and that all share one channel
count — each violated condition fails the corresponding assertion — and when
every condition holds it returns the common window length and channel count
with the windows dataset. -/
theorem create_windows_ds_assertions_and_result (files : List EpochsFile)
    (ages : List Nat) :
    (files.length ≠ ages.length → isOkE (create_windows_ds files ages) = false)
    ∧ ((∃ f ∈ files, ∃ g ∈ files, f.windowLen ≠ g.windowLen) →
        isOkE (create_windows_ds files ages) = false)
    ∧ ((∃ f ∈ files, ∃ g ∈ files, f.nChannels ≠ g.nChannels) →
        isOkE (create_windows_ds files ages) = false)
    ∧ (∀ w c : Nat, files ≠ [] → files.length = ages.length →
        (∀ f ∈ files, f.windowLen = w) → (∀ f ∈ files, f.nChannels = c) →
        ∃ ds : WindowsDS, create_windows_ds files ages = .ok (ds, w, c)) := by
  refine ⟨?_, ?_, ?_, ?_⟩
  · intro hlen
    unfold create_windows_ds
    rw [if_pos hlen]
    rfl
  · rintro ⟨f, hf, g, hg, hne⟩
    by_cases hlen : files.length = ages.length
    · have hws := windowSizes_eq files ages (le_of_eq hlen)
      have hfs : f.windowLen ∈ windowSizes files ages := by
        rw [hws]; exact List.mem_map_of_mem _ hf
      have hgs : g.windowLen ∈ windowSizes files ages := by
        rw [hws]; exact List.mem_map_of_mem _ hg
      have hd1 := dedup_length_ne_one_of_two _ _ _ hfs hgs hne
      unfold create_windows_ds
      rw [if_neg (not_not_intro hlen), if_pos hd1]
      rfl
    · unfold create_windows_ds
      rw [if_pos hlen]
      rfl
  · rintro ⟨f, hf, g, hg, hne⟩
    by_cases hlen : files.length = ages.length
    · have hcs := nChannelsList_eq files ages (le_of_eq hlen)
      have hfs : f.nChannels ∈ nChannelsList files ages := by
        rw [hcs]; exact List.mem_map_of_mem _ hf
      have hgs : g.nChannels ∈ nChannelsList files ages := by
        rw [hcs]; exact List.mem_map_of_mem _ hg
      have hd2 := dedup_length_ne_one_of_two _ _ _ hfs hgs hne
      unfold create_windows_ds
      rw [if_neg (not_not_intro hlen)]
      by_cases hw : (windowSizes files ages).dedup.length ≠ 1
      · rw [if_pos hw]
        rfl
      · rw [if_neg hw, if_pos hd2]
        rfl
    · unfold create_windows_ds
      rw [if_pos hlen]
      rfl
  · intro w c hne hlen hallw hallc
    have hws := windowSizes_eq files ages (le_of_eq hlen)
    have hcs := nChannelsList_eq files ages (le_of_eq hlen)
    have hmapne : files.map (fun e => e.windowLen) ≠ [] :=
      fun hmap => hne (List.map_eq_nil_iff.mp hmap)
    have hmapnec : files.map (fun e => e.nChannels) ≠ [] :=
      fun hmap => hne (List.map_eq_nil_iff.mp hmap)
    have hwded : (windowSizes files ages).dedup = [w] := by
      rw [hws]
      refine dedup_eq_singleton_of_const _ w hmapne ?_
      intro x hx
      obtain ⟨f, hf, rfl⟩ := List.mem_map.mp hx
      exact hallw f hf
    have hcded : (nChannelsList files ages).dedup = [c] := by
      rw [hcs]
      refine dedup_eq_singleton_of_const _ c hmapnec ?_
      intro x hx
      obtain ⟨f, hf, rfl⟩ := List.mem_map.mp hx
      exact hallc f hf
    have hhead : (windowSizes files ages).headD 0 = w := by
      rw [hws]
      cases files with
      | nil => exact absurd rfl hne
      | cons f t => exact hallw f (List.mem_cons_self _ _)
    have hheadc : (nChannelsList files ages).headD 0 = c := by
      rw [hcs]
      cases files with
      | nil => exact absurd rfl hne
      | cons f t => exact hallc f (List.mem_cons_self _ _)
    have h1 : (windowSizes files ages).dedup.length = 1 := by rw [hwded]; rfl
    have h2 : (nChannelsList files ages).dedup.length = 1 := by rw [hcded]; rfl
    unfold create_windows_ds
    rw [if_neg (not_not_intro hlen), if_neg (not_not_intro h1),
      if_neg (not_not_intro h2), hhead, hheadc]
    exact ⟨_, rfl⟩

/-- Witness for C8: two three-channel hundred-sample files with two ages pass
every assertion and yield window length 100 and channel count 3, while a
missing age fails the length assertion. -/
theorem create_windows_ds_assertions_and_result_witness :
    (∃ ds : WindowsDS,
      create_windows_ds [⟨2, 3, 100, []⟩, ⟨1, 3, 100, []⟩] [30, 40] = .ok (ds, 100, 3))
    ∧ isOkE (create_windows_ds [⟨2, 3, 100, []⟩] []) = false :=
  ⟨(create_windows_ds_assertions_and_result [⟨2, 3, 100, []⟩, ⟨1, 3, 100, []⟩]
      [30, 40]).2.2.2 100 3 (by decide) (by decide) (by decide) (by decide),
   (create_windows_ds_assertions_and_result [⟨2, 3, 100, []⟩] []).1 (by decide)⟩

/-- Claim C9.  In `create_model_and_data_split`, a fold index at or past the
number of splits raises nothing: the loop silently leaves the split of the
last enumerated fold in place, and an in-range index selects exactly that
fold. -/
theorem out_of_range_fold_uses_last_split (perm : Nat → Nat → List Nat)
    (ambient : Nat) (model_name : String) (windows_ds : WindowsDS)
    (n_channels window_size n_epochs : Nat) (cv : KFold) (fold seed batch_size : Nat)
    (hm : model_name = "shallow" ∨ model_name = "deep")
    (hne : cv.split perm ambient windows_ds.len ≠ []) :
    ((cv.split perm ambient windows_ds.len).length ≤ fold →
      splitChoice (create_model_and_data_split perm ambient model_name windows_ds
          n_channels window_size n_epochs cv fold seed batch_size)
        = some ((cv.split perm ambient windows_ds.len).getLast hne))
    ∧ (∀ hf : fold < (cv.split perm ambient windows_ds.len).length,
      splitChoice (create_model_and_data_split perm ambient model_name windows_ds
          n_channels window_size n_epochs cv fold seed batch_size)
        = some ((cv.split perm ambient windows_ds.len).get ⟨fold, hf⟩)) := by
  obtain ⟨mt, lr, wd, hcm⟩ : ∃ mt lr wd,
      create_model model_name window_size n_channels seed = .ok (mt, lr, wd) := by
    rcases hm with rfl | rfl
    · exact ⟨_, _, _, rfl⟩
    · exact ⟨_, _, _, rfl⟩
  constructor
  · intro hge
    have hp : pickFold (cv.split perm ambient windows_ds.len) fold
        = some ((cv.split perm ambient windows_ds.len).getLast hne) :=
      pickFoldGo_ge _ 0 fold none hne (by simpa using hge)
    simp only [create_model_and_data_split, hcm, List.length_range]
    rw [hp]
    rfl
  · intro hf
    have hp : pickFold (cv.split perm ambient windows_ds.len) fold
        = some ((cv.split perm ambient windows_ds.len).get ⟨fold, hf⟩) := by
      have := pickFoldGo_lt (cv.split perm ambient windows_ds.len) 0 none fold hf
      simpa [pickFold] using this
    simp only [create_model_and_data_split, hcm, List.length_range]
    rw [hp]
    rfl

/-- Witness for C9: two folds over four windows, requested fold 5, the second
(last) fold is silently used. -/
theorem out_of_range_fold_uses_last_split_witness :
    splitChoice (create_model_and_data_split permW 0 "shallow" wdsW 3 100 35
        ⟨2, false, none⟩ 5 20211011 64) = some ([0, 1], [2, 3]) := by
  have h := (out_of_range_fold_uses_last_split permW 0 "shallow" wdsW 3 100 35
      ⟨2, false, none⟩ 5 20211011 64 (Or.inl rfl) (by decide)).1 (by decide)
  exact h.trans (by decide)
